import Mathlib

/-!
Shallow embedding of `src/auxin/src/receiver.rs` (the Auxin receive engine):
the poll loop `AuxinReceiver::next`, its helpers `next_inner` and
`acknowledge_message`, and `reconnect`.

External collaborators (the protobuf envelope parser behind
`read_envelope_from_bin`, `AuxinApp::handle_inbound_envelope`, the state
manager's `save_peer_sessions`, the outbound `send_message` path, and the
websocket sink/stream) live outside `src/` and are modelled as an oracle
record `Env` of result-valued functions, per the collaborator interfaces of
the specification.  Side effects (frame reads, websocket sends, flushes,
receipt sends, session saves, log lines) are recorded in order in a trace of
`Event`s, so that ordering and counting claims can be stated on the trace.
-/

/-- Mirrors `auxin_protos::WebSocketMessage_Type`: the tag of a websocket
frame, `{UNKNOWN, REQUEST, RESPONSE}`. -/
inductive WebSocketMessage_Type where
  | UNKNOWN
  | REQUEST
  | RESPONSE
deriving DecidableEq, Repr

/-- Mirrors `auxin_protos::WebSocketRequestMessage`: `id`, `verb`, `path`
(with its protobuf presence flag, for `has_path()`), `headers`, `body`.
The `u64` id is modelled as `Nat` (no arithmetic is performed on it). -/
structure WebSocketRequestMessage where
  id : Nat
  verb : String
  path : String
  hasPath : Bool
  headers : List (String × String)
  body : List Nat
deriving DecidableEq, Repr

/-- Mirrors `auxin_protos::WebSocketResponseMessage`: `id`, `status`,
`message`, `headers`. -/
structure WebSocketResponseMessage where
  id : Nat
  status : Int
  message : String
  headers : List (String × String)
deriving DecidableEq, Repr

/-- Protobuf default value of a request message (all fields unset). -/
def defaultRequest : WebSocketRequestMessage :=
  { id := 0, verb := "", path := "", hasPath := false, headers := [], body := [] }

/-- Protobuf default value of a response message (all fields unset). -/
def defaultResponse : WebSocketResponseMessage :=
  { id := 0, status := 0, message := "", headers := [] }

/-- Mirrors `auxin_protos::WebSocketMessage`: a type tag plus a request and a
response field (protobuf getters return the default value when the field is
absent, so both fields are always present in the model). -/
structure WebSocketMessage where
  fieldType : WebSocketMessage_Type
  request : WebSocketRequestMessage
  response : WebSocketResponseMessage
deriving DecidableEq, Repr

/-- Modelled from the spec: the Envelope produced by parsing a request body
(`auxin_protos::Envelope` is external to `src/`).  It is opaque to the
receive engine: parsed by one oracle, consumed by another. -/
structure Envelope where
  raw : List Nat
deriving DecidableEq, Repr

/-- Modelled from the spec: `crate::message::MessageIn` (not under `src/`),
the decrypted `InboundMessage` `{remote_address, content, needs_receipt}`.
`remoteAddress` models `msg.remote_address.address`, and `needsReceipt`
models the `needs_receipt()` accessor used by `acknowledge_message`. -/
structure MessageIn where
  remoteAddress : String
  content : String
  needsReceipt : Bool
deriving DecidableEq, Repr

/-- Modelled from the spec: `crate::message::MessageInError` (not under
`src/`), the decrypt collaborator's classified error.  `receiver.rs` matches
on exactly the `ProtocolError` and `DecodingProblem` variants and has a
catch-all for the rest; `Other` stands for every remaining classified kind. -/
inductive MessageInError where
  | ProtocolError (e : String)
  | DecodingProblem (e : String)
  | Other (e : String)
deriving DecidableEq, Repr

/-- Mirrors `ReceiveError` of `receiver.rs`: the receive engine's error
taxonomy.  Diagnostic strings of external errors (`format!("{:?}", e)`) are
modelled by the oracle's error string itself. -/
inductive ReceiveError where
  | NetSpecific (e : String)
  | SendErr (e : String)
  | InError (e : MessageInError)
  | StoreStateError (e : String)
  | ReconnectErr (e : String)
  | AttachmentErr (e : String)
  | DeserializeErr (e : String)
  | UnknownWebsocketTy
deriving DecidableEq, Repr

/-- Debug formatting of `MessageInError`, for `format!("{:?}", e)`. -/
def MessageInError.debugFmt : MessageInError → String
  | .ProtocolError e => "ProtocolError(" ++ e ++ ")"
  | .DecodingProblem e => "DecodingProblem(" ++ e ++ ")"
  | .Other e => "Other(" ++ e ++ ")"

/-- Debug formatting of `ReceiveError`, for the `format!("{:?}", e)` applied
to an already-classified error in the end-of-queue branch of `next`. -/
def ReceiveError.debugFmt : ReceiveError → String
  | .NetSpecific e => "NetSpecific(" ++ e ++ ")"
  | .SendErr e => "SendErr(" ++ e ++ ")"
  | .InError e => "InError(" ++ e.debugFmt ++ ")"
  | .StoreStateError e => "StoreStateError(" ++ e ++ ")"
  | .ReconnectErr e => "ReconnectErr(" ++ e ++ ")"
  | .AttachmentErr e => "AttachmentErr(" ++ e ++ ")"
  | .DeserializeErr e => "DeserializeErr(" ++ e ++ ")"
  | .UnknownWebsocketTy => "UnknownWebsocketTy"

/-- Mirrors the error position of `crate::Result` (a boxed `dyn Error`):
either one of the engine's own `ReceiveError`s or a transport error. -/
inductive CrateError where
  | receive (e : ReceiveError)
  | transport (e : String)
deriving DecidableEq, Repr

instance {ε α : Type} [DecidableEq ε] [DecidableEq α] : DecidableEq (Except ε α)
  | .error a, .error b =>
    if h : a = b then .isTrue (by rw [h]) else .isFalse (by intro k; cases k; exact h rfl)
  | .error _, .ok _ => .isFalse (by intro k; cases k)
  | .ok _, .error _ => .isFalse (by intro k; cases k)
  | .ok a, .ok b =>
    if h : a = b then .isTrue (by rw [h]) else .isFalse (by intro k; cases k; exact h rfl)

/-- One observable side effect of the receive engine, in execution order:
frame reads from the inbound stream, websocket sends and flushes on the
outbound sink, calls into the decode/decrypt/persist/send collaborators,
log lines, and the close/connect steps of `reconnect`. -/
inductive Event where
  | readFrame (item : Except String WebSocketMessage)
  | readEnd
  | sendWS (m : WebSocketMessage)
  | flushSink
  | sendReceipt (addr : String)
  | saveSession (addr : String)
  | decodeCall (body : List Nat)
  | decryptCall (envl : Envelope)
  | logWarn (s : String)
  | logInfo (s : String)
  | logDebug (s : String)
  | closeSink
  | connectWS
deriving DecidableEq, Repr

/-- Substring test on `List Char` (used for Rust's `str::contains`). -/
def listHasSub (pat : List Char) : List Char → Bool
  | [] => pat.isEmpty
  | c :: t => List.isPrefixOf pat (c :: t) || listHasSub pat t

/-- Rust's `s.contains(pat)`: `pat` occurs as a contiguous substring. -/
def strContains (s pat : String) : Bool :=
  listHasSub pat.toList s.toList

/-- Oracle for the external collaborators of the receive engine, one call of
`next`/`reconnect` at a time: `read_envelope_from_bin`'s protobuf parse,
`handle_inbound_envelope`, the websocket sink's `send`/`flush`/`close`, the
outbound `send_message` path (keyed by recipient address), the state
manager's `save_peer_sessions` (keyed by peer address), and the net
manager's `connect_to_signal_websocket`. -/
structure Env where
  read_envelope_from_bin : List Nat → Except String Envelope
  handle_inbound_envelope : Envelope → Except MessageInError (Option MessageIn)
  sink_send : WebSocketMessage → Except String Unit
  flush_result : Except String Unit
  send_message : String → Except String Unit
  save_peer_sessions : String → Except String Unit
  close_result : Except String Unit
  connect_result : Except String Unit

/-- Acknowledgment frame built by `acknowledge_message`: a `RESPONSE`-typed
websocket message whose response has the request's id, status 200, message
"OK", and the request's headers; the request field stays at its default. -/
def ackMessage (req : WebSocketRequestMessage) : WebSocketMessage :=
  { fieldType := .RESPONSE
    request := defaultRequest
    response := { id := req.id, status := 200, message := "OK", headers := req.headers } }

/-- Log text of the `warn!` on a swallowed `ProtocolError`. -/
def warnProtocolLog (e : String) : String :=
  "Message failed to decrypt - ignoring error and continuing to receive messages to clear out prior bad state. Error was: " ++ e

/-- Log text of the `warn!` on a swallowed `DecodingProblem`. -/
def warnDecodingLog (e : String) : String :=
  "Message failed to decode (bad envelope?) - ignoring error and continuing to receive messages to clear out prior bad state. Error was: " ++ e

/-- Log text of the `info!` on an inbound `RESPONSE` frame. -/
def infoResponseLog (r : WebSocketResponseMessage) : String :=
  "WebSocket response message received: id " ++ toString r.id ++ " status " ++ toString r.status ++ " " ++ r.message

/-- Log text of the `debug!` on the end-of-queue sentinel frame. -/
def queueEmptyLog : String :=
  "Received an /api/v1/queue/empty message. Message receiving complete."

/-- End-of-queue sentinel path fragment tested by `next`. -/
def sentinelPath : String := "/api/v1/queue/empty"

/-- Trailing `self.outstream.flush()` of `acknowledge_message`: emits a
flush event and maps a sink error to `SendErr`. -/
def flushStep (env : Env) (tr : List Event) : List Event × Except ReceiveError Unit :=
  let tr := tr ++ [Event.flushSink]
  match env.flush_result with
  | .error e => (tr, .error (.SendErr e))
  | .ok _ => (tr, .ok ())

/-- Translation of `AuxinReceiver::acknowledge_message`: build the ack
response for `req`, send it on the outbound sink, then (when a decrypted
message is present and wants a receipt) send a delivery receipt through the
external send path, then flush the sink.  Every failure maps to `SendErr`.
Returns the events it emitted, in order, alongside the result. -/
def acknowledge_message (env : Env) (msg : Option MessageIn)
    (req : WebSocketRequestMessage) : List Event × Except ReceiveError Unit :=
  let res_m := ackMessage req
  let tr := [Event.sendWS res_m]
  match env.sink_send res_m with
  | .error e => (tr, .error (.SendErr e))
  | .ok _ =>
    match msg with
    | some m =>
      if m.needsReceipt then
        let tr := tr ++ [Event.sendReceipt m.remoteAddress]
        match env.send_message m.remoteAddress with
        | .error e => (tr, .error (.SendErr e))
        | .ok _ => flushStep env tr
      else flushStep env tr
    | none => flushStep env tr

/-- Continuation of `next_inner` after the decrypt match: acknowledge the
request, then, exactly when a decrypted message is present, save the peer's
session (a save failure is `StoreStateError`); finally return the message. -/
def afterDecrypt (env : Env) (pre : List Event) (msg : Option MessageIn)
    (req : WebSocketRequestMessage) : List Event × Except ReceiveError (Option MessageIn) :=
  match acknowledge_message env msg req with
  | (tr2, .error e) => (pre ++ tr2, .error e)
  | (tr2, .ok _) =>
    match msg with
    | some m =>
      let tr := pre ++ tr2 ++ [Event.saveSession m.remoteAddress]
      match env.save_peer_sessions m.remoteAddress with
      | .error e => (tr, .error (.StoreStateError e))
      | .ok _ => (tr, .ok msg)
    | none => (pre ++ tr2, .ok none)

/-- Translation of `AuxinReceiver::next_inner`: dispatch one frame by type.
`UNKNOWN` is fatal; a `REQUEST` has its body parsed (parse failure is a
fatal `DeserializeErr`), is decrypted (`ProtocolError`/`DecodingProblem`
are logged and swallowed as "no message", every other kind is a fatal
`InError`), acknowledged, and on a produced message the session is saved; a
`RESPONSE` is logged and produces no message. -/
def next_inner (env : Env) (wsmessage : WebSocketMessage) :
    List Event × Except ReceiveError (Option MessageIn) :=
  match wsmessage.fieldType with
  | .UNKNOWN => ([], .error .UnknownWebsocketTy)
  | .REQUEST =>
    let req := wsmessage.request
    let tr := [Event.decodeCall req.body]
    match env.read_envelope_from_bin req.body with
    | .error e => (tr, .error (.DeserializeErr e))
    | .ok envelope =>
      let tr := tr ++ [Event.decryptCall envelope]
      match env.handle_inbound_envelope envelope with
      | .error (.ProtocolError e) =>
        afterDecrypt env (tr ++ [Event.logWarn (warnProtocolLog e)]) none req
      | .error (.DecodingProblem e) =>
        afterDecrypt env (tr ++ [Event.logWarn (warnDecodingLog e)]) none req
      | .error e => (tr, .error (.InError e))
      | .ok m => afterDecrypt env tr m req
  | .RESPONSE =>
    ([Event.logInfo (infoResponseLog wsmessage.response)], .ok none)

/-- Translation of the `for _ in 0..64` loop body of `AuxinReceiver::next`,
with the remaining iteration budget as fuel.  Returns the result of the
call, the full event trace, and the frames left unread on the stream. -/
def next_loop (env : Env) :
    Nat → List (Except String WebSocketMessage) →
    Option (Except ReceiveError MessageIn) × List Event × List (Except String WebSocketMessage)
  | 0, instream => (none, [], instream)
  | Nat.succ fuel, instream =>
    match instream with
    | [] => (none, [Event.readEnd], [])
    | item :: rest =>
      match item with
      | .error e => (some (.error (.NetSpecific e)), [Event.readFrame item], rest)
      | .ok m =>
        if m.fieldType = WebSocketMessage_Type.REQUEST ∧ m.request.hasPath = true ∧
            strContains m.request.path sentinelPath = true then
          let pre := [Event.readFrame item, Event.logDebug queueEmptyLog]
          let ar := acknowledge_message env none m.request
          match ar.2 with
          | .ok _ => (none, pre ++ ar.1, rest)
          | .error e =>
            (some (.error (.SendErr e.debugFmt)), pre ++ ar.1, rest)
        else
          let ni := next_inner env m
          match ni.2 with
          | .ok (some message) =>
            (some (.ok message), Event.readFrame item :: ni.1, rest)
          | .ok none =>
            ((next_loop env fuel rest).1,
             (Event.readFrame item :: ni.1) ++ (next_loop env fuel rest).2.1,
             (next_loop env fuel rest).2.2)
          | .error e =>
            (some (.error e), Event.readFrame item :: ni.1, rest)

/-- Translation of `AuxinReceiver::next`: poll the inbound stream for the
next message, trying at most 64 frames. -/
def next (env : Env) (instream : List (Except String WebSocketMessage)) :
    Option (Except ReceiveError MessageIn) × List Event × List (Except String WebSocketMessage) :=
  next_loop env 64 instream

/-- Translation of `AuxinReceiver::reconnect`: close the outbound sink (a
close failure becomes `ReconnectErr` and is propagated by `?`), then connect
a fresh websocket pair and install it.  The installed stream pair is
modelled by a generation counter, incremented exactly when both steps
succeed. -/
def reconnect (env : Env) (streamGen : Nat) : List Event × Except CrateError Nat :=
  let tr := [Event.closeSink]
  match env.close_result with
  | .error e => (tr, .error (.receive (.ReconnectErr ("Could not close: " ++ e))))
  | .ok _ =>
    let tr := tr ++ [Event.connectWS]
    match env.connect_result with
    | .error e => (tr, .error (.transport e))
    | .ok _ => (tr, .ok (streamGen + 1))

/-! Trace predicates used to state the claims. -/

/-- True on every event except a frame read from the inbound stream. -/
def notRead : Event → Bool
  | .readFrame _ => false
  | _ => true

/-- Frame reads from the inbound stream. -/
def isReadEvent : Event → Bool
  | .readFrame _ => true
  | _ => false

/-- Websocket sends of a `RESPONSE`-typed frame, i.e. acknowledgments (the
only `RESPONSE`-typed frames the engine ever sends). -/
def isAckSend : Event → Bool
  | .sendWS m =>
    match m.fieldType with
    | .RESPONSE => true
    | _ => false
  | _ => false

/-- Session-persistence calls. -/
def isSaveEvent : Event → Bool
  | .saveSession _ => true
  | _ => false

/-- Whether the decode/decrypt collaborators let the engine reach the
acknowledgment step for this request body: the body parses and the decrypt
outcome is a success or one of the two swallowed failure kinds. -/
def decryptOutcomeAcked (env : Env) (m : WebSocketMessage) : Bool :=
  match env.read_envelope_from_bin m.request.body with
  | .error _ => false
  | .ok envl =>
    match env.handle_inbound_envelope envl with
    | .error (.Other _) => false
    | _ => true

/-- Whether an inbound stream item obliges the engine to acknowledge it:
a `REQUEST` frame that is either an end-of-queue sentinel or reaches the
acknowledgment step of `next_inner`. -/
def getsAck (env : Env) : Except String WebSocketMessage → Bool
  | .error _ => false
  | .ok m =>
    match m.fieldType with
    | .REQUEST =>
      (m.request.hasPath && strContains m.request.path sentinelPath) ||
        decryptOutcomeAcked env m
    | _ => false

/-- The request carried by a stream item (protobuf default on a stream
error; unused in that case). -/
def frameRequest : Except String WebSocketMessage → WebSocketRequestMessage
  | .ok m => m.request
  | .error _ => defaultRequest

/-- The acknowledgments found in one frame's trace segment: exactly the one
matching ack when the frame obliges one, none otherwise. -/
def chunkCond (env : Env) (item : Except String WebSocketMessage)
    (seg : List Event) : Prop :=
  seg.filter isAckSend =
    if getsAck env item then [Event.sendWS (ackMessage (frameRequest item))] else []

/-- Exactly-once acknowledgment discipline of a trace: between each frame
read and the next one, the acknowledgments sent are exactly the one the
frame obliges (and none for frames that oblige none). -/
def wellAcked (env : Env) : List Event → Prop
  | [] => True
  | Event.readFrame it :: t =>
    chunkCond env it (t.takeWhile notRead) ∧ wellAcked env (t.dropWhile notRead)
  | _ :: t => wellAcked env t
termination_by l => l.length
decreasing_by
  · have h : (t.dropWhile notRead).length ≤ t.length := by
      induction t with
      | nil => simp [List.dropWhile]
      | cons a t2 ih =>
        by_cases hp : notRead a = true
        · rw [List.dropWhile_cons_of_pos hp]
          exact Nat.le_trans ih (Nat.le_succ _)
        · rw [List.dropWhile_cons_of_neg hp]
    exact Nat.lt_succ_of_le h
  · exact Nat.lt_succ_self _

/-- Session-save events appended by `afterDecrypt` after a successful
acknowledgment: one save exactly when a decrypted message is present. -/
def savePart (r : Except ReceiveError Unit) (msg : Option MessageIn) : List Event :=
  match r, msg with
  | .ok _, some m => [Event.saveSession m.remoteAddress]
  | _, _ => []

/-- The six events of one poll iteration that swallows a `ProtocolError`
decrypt failure, used in the 64-frame livelock scenario. -/
def swallowChunk (ws : WebSocketMessage) (envl : Envelope) (e : String) : List Event :=
  [Event.readFrame (.ok ws), Event.decodeCall ws.request.body, Event.decryptCall envl,
   Event.logWarn (warnProtocolLog e), Event.sendWS (ackMessage ws.request), Event.flushSink]

/-! Concrete inputs used by the witnesses and counterexamples. -/

/-- Decrypted message of the happy-path witness (no receipt wanted). -/
def msgW : MessageIn := { remoteAddress := "peer", content := "hello", needsReceipt := false }

/-- Decrypted message that wants a delivery receipt. -/
def msgR : MessageIn := { remoteAddress := "peer", content := "hello", needsReceipt := true }

/-- Ordinary delivery request frame of the witnesses. -/
def reqW : WebSocketRequestMessage :=
  { id := 42, verb := "PUT", path := "/api/v1/message", hasPath := true,
    headers := [("h", "v")], body := [1, 2] }

/-- Ordinary request frame. -/
def wsReq : WebSocketMessage :=
  { fieldType := .REQUEST, request := reqW, response := defaultResponse }

/-- Inbound `RESPONSE`-typed frame. -/
def wsResp : WebSocketMessage :=
  { fieldType := .RESPONSE, request := defaultRequest,
    response := { id := 5, status := 200, message := "gotcha", headers := [] } }

/-- End-of-queue sentinel frame. -/
def wsSentinel : WebSocketMessage :=
  { fieldType := .REQUEST,
    request := { reqW with path := "/api/v1/queue/empty" }, response := defaultResponse }

/-- Oracle where every collaborator succeeds and decrypt yields `msgW`. -/
def envOkW : Env :=
  { read_envelope_from_bin := fun b => .ok ⟨b⟩
    handle_inbound_envelope := fun _ => .ok (some msgW)
    sink_send := fun _ => .ok ()
    flush_result := .ok ()
    send_message := fun _ => .ok ()
    save_peer_sessions := fun _ => .ok ()
    close_result := .ok ()
    connect_result := .ok () }

/-- Oracle whose decrypt collaborator always fails with `ProtocolError`. -/
def envSwallowW : Env :=
  { envOkW with handle_inbound_envelope := fun _ => .error (.ProtocolError "stale") }

/-- Oracle whose envelope parse always fails. -/
def envDecodeFailW : Env :=
  { envOkW with read_envelope_from_bin := fun _ => .error "bad bytes" }

/-- Oracle where decrypt yields a receipt-wanting message but the external
send path fails. -/
def envReceiptFailW : Env :=
  { envOkW with
    handle_inbound_envelope := fun _ => .ok (some msgR)
    send_message := fun _ => .error "http 500" }

/-- Oracle whose outbound sink refuses to close. -/
def envCloseFailW : Env :=
  { envOkW with close_result := .error "denied" }

/-! Trace characterization lemmas for the engine's helpers. -/

theorem isAckSend_ackMessage (req : WebSocketRequestMessage) :
    isAckSend (Event.sendWS (ackMessage req)) = true := rfl

theorem ackMessage_fieldType (req : WebSocketRequestMessage) :
    (ackMessage req).fieldType = WebSocketMessage_Type.RESPONSE := rfl

theorem ack_filter (env : Env) (msg : Option MessageIn) (req : WebSocketRequestMessage) :
    ((acknowledge_message env msg req).1.filter isAckSend) = [Event.sendWS (ackMessage req)] := by
  cases hs : env.sink_send (ackMessage req) with
  | error e => simp [acknowledge_message, hs, isAckSend_ackMessage, List.filter]
  | ok u =>
    cases msg with
    | none =>
      cases hf : env.flush_result <;>
        simp [acknowledge_message, flushStep, hs, hf, isAckSend, isAckSend_ackMessage,
          ackMessage_fieldType, List.filter]
    | some m =>
      cases hr : m.needsReceipt
      · cases hf : env.flush_result <;>
          simp [acknowledge_message, flushStep, hs, hf, hr, isAckSend, isAckSend_ackMessage,
            ackMessage_fieldType, List.filter]
      · cases hsm : env.send_message m.remoteAddress with
        | error e =>
          simp [acknowledge_message, hs, hr, hsm, isAckSend, isAckSend_ackMessage,
            ackMessage_fieldType, List.filter]
        | ok v =>
          cases hf : env.flush_result <;>
            simp [acknowledge_message, flushStep, hs, hr, hsm, hf, isAckSend, isAckSend_ackMessage,
              ackMessage_fieldType, List.filter]

theorem ack_notRead (env : Env) (msg : Option MessageIn) (req : WebSocketRequestMessage) :
    ∀ e ∈ (acknowledge_message env msg req).1, notRead e = true := by
  cases hs : env.sink_send (ackMessage req) with
  | error e => simp [acknowledge_message, hs, notRead]
  | ok u =>
    cases msg with
    | none =>
      cases hf : env.flush_result <;>
        simp [acknowledge_message, flushStep, hs, hf, notRead]
    | some m =>
      cases hr : m.needsReceipt
      · cases hf : env.flush_result <;>
          simp [acknowledge_message, flushStep, hs, hf, hr, notRead]
      · cases hsm : env.send_message m.remoteAddress with
        | error e => simp [acknowledge_message, hs, hr, hsm, notRead]
        | ok v =>
          cases hf : env.flush_result <;>
            simp [acknowledge_message, flushStep, hs, hr, hsm, hf, notRead]

theorem afterDecrypt_trace (env : Env) (pre : List Event) (msg : Option MessageIn)
    (req : WebSocketRequestMessage) :
    (afterDecrypt env pre msg req).1 =
      pre ++ (acknowledge_message env msg req).1 ++
        savePart (acknowledge_message env msg req).2 msg := by
  unfold afterDecrypt
  cases ha : acknowledge_message env msg req with
  | mk tr2 r =>
    cases r with
    | error e => simp [savePart]
    | ok u =>
      cases msg with
      | none => simp [savePart]
      | some m => cases hs : env.save_peer_sessions m.remoteAddress <;> simp [hs, savePart]

theorem savePart_filter (r : Except ReceiveError Unit) (msg : Option MessageIn) :
    (savePart r msg).filter isAckSend = [] := by
  cases r <;> cases msg <;> simp [savePart, isAckSend, List.filter]

theorem savePart_notRead (r : Except ReceiveError Unit) (msg : Option MessageIn) :
    ∀ e ∈ savePart r msg, notRead e = true := by
  cases r <;> cases msg <;> simp [savePart, notRead]

theorem next_inner_filter_ack (env : Env) (m : WebSocketMessage)
    (hty : m.fieldType = WebSocketMessage_Type.REQUEST) :
    (next_inner env m).1.filter isAckSend =
      if decryptOutcomeAcked env m then [Event.sendWS (ackMessage m.request)] else [] := by
  cases hd : env.read_envelope_from_bin m.request.body with
  | error e => simp [next_inner, hty, hd, decryptOutcomeAcked, isAckSend, List.filter]
  | ok envl =>
    cases hh : env.handle_inbound_envelope envl with
    | error er =>
      cases er with
      | ProtocolError e =>
        simp [next_inner, hty, hd, hh, decryptOutcomeAcked, afterDecrypt_trace,
          List.filter_append, ack_filter, savePart_filter, isAckSend, List.filter]
      | DecodingProblem e =>
        simp [next_inner, hty, hd, hh, decryptOutcomeAcked, afterDecrypt_trace,
          List.filter_append, ack_filter, savePart_filter, isAckSend, List.filter]
      | Other e =>
        simp [next_inner, hty, hd, hh, decryptOutcomeAcked, isAckSend, List.filter]
    | ok msgOpt =>
      simp [next_inner, hty, hd, hh, decryptOutcomeAcked, afterDecrypt_trace,
        List.filter_append, ack_filter, savePart_filter, isAckSend, List.filter]

theorem next_inner_notRead (env : Env) (m : WebSocketMessage) :
    ∀ e ∈ (next_inner env m).1, notRead e = true := by
  cases hft : m.fieldType with
  | UNKNOWN => simp [next_inner, hft]
  | RESPONSE => simp [next_inner, hft, notRead]
  | REQUEST =>
    cases hd : env.read_envelope_from_bin m.request.body with
    | error e => simp [next_inner, hft, hd, notRead]
    | ok envl =>
      have step : ∀ (pre : List Event) (msgOpt : Option MessageIn),
          (∀ x ∈ pre, notRead x = true) →
          ∀ x ∈ (afterDecrypt env pre msgOpt m.request).1, notRead x = true := by
        intro pre msgOpt hpre x hx
        rw [afterDecrypt_trace] at hx
        rcases List.mem_append.1 hx with hx2 | hx2
        · rcases List.mem_append.1 hx2 with hx3 | hx3
          · exact hpre x hx3
          · exact ack_notRead env msgOpt m.request x hx3
        · exact savePart_notRead _ msgOpt x hx2
      cases hh : env.handle_inbound_envelope envl with
      | error er =>
        cases er with
        | ProtocolError e =>
          intro x hx
          simp only [next_inner, hft, hd, hh] at hx
          exact step _ none (by simp [notRead]) x hx
        | DecodingProblem e =>
          intro x hx
          simp only [next_inner, hft, hd, hh] at hx
          exact step _ none (by simp [notRead]) x hx
        | Other e => simp [next_inner, hft, hd, hh, notRead]
      | ok msgOpt =>
        intro x hx
        simp only [next_inner, hft, hd, hh] at hx
        exact step _ msgOpt (by simp [notRead]) x hx

theorem isReadEvent_false_of_notRead (e : Event) (h : notRead e = true) :
    isReadEvent e = false := by
  cases e <;> first | rfl | (exfalso; simp [notRead] at h)

theorem next_inner_countP_read (env : Env) (m : WebSocketMessage) :
    (next_inner env m).1.countP isReadEvent = 0 := by
  rw [List.countP_eq_zero]
  intro a ha
  rw [isReadEvent_false_of_notRead a (next_inner_notRead env m a ha)]
  exact Bool.false_ne_true

theorem ack_countP_read (env : Env) (msg : Option MessageIn) (req : WebSocketRequestMessage) :
    (acknowledge_message env msg req).1.countP isReadEvent = 0 := by
  rw [List.countP_eq_zero]
  intro a ha
  rw [isReadEvent_false_of_notRead a (ack_notRead env msg req a ha)]
  exact Bool.false_ne_true

theorem next_loop_reads_le (env : Env) (fuel : Nat)
    (ins : List (Except String WebSocketMessage)) :
    ((next_loop env fuel ins).2.1.countP isReadEvent) ≤ fuel := by
  induction fuel generalizing ins with
  | zero => simp [next_loop]
  | succ fuel ih =>
    cases ins with
    | nil => simp [next_loop, isReadEvent]
    | cons item rest =>
      cases item with
      | error e => simp [next_loop, isReadEvent, List.countP_cons]
      | ok m =>
        by_cases hc : (m.fieldType = WebSocketMessage_Type.REQUEST ∧ m.request.hasPath = true ∧
            strContains m.request.path sentinelPath = true)
        · cases har : (acknowledge_message env none m.request).2 with
          | ok u =>
            simp [next_loop, if_pos hc, har, List.countP_cons, List.countP_append,
              isReadEvent, ack_countP_read]
          | error e2 =>
            simp [next_loop, if_pos hc, har, List.countP_cons, List.countP_append,
              isReadEvent, ack_countP_read]
        · cases hni : (next_inner env m).2 with
          | error e2 =>
            simp [next_loop, if_neg hc, hni, List.countP_cons, isReadEvent,
              next_inner_countP_read]
          | ok o =>
            cases o with
            | some message =>
              simp [next_loop, if_neg hc, hni, List.countP_cons, isReadEvent,
                next_inner_countP_read]
            | none =>
              have h2 := ih rest
              simp [next_loop, if_neg hc, hni, List.cons_append, List.countP_cons,
                List.countP_append, next_inner_countP_read, isReadEvent]
              omega

theorem next_loop_trace_shape (env : Env) (fuel : Nat)
    (ins : List (Except String WebSocketMessage)) :
    (next_loop env fuel ins).2.1 = [] ∨ (next_loop env fuel ins).2.1 = [Event.readEnd] ∨
      ∃ it t, (next_loop env fuel ins).2.1 = Event.readFrame it :: t := by
  cases fuel with
  | zero => left; rfl
  | succ fuel =>
    cases ins with
    | nil => right; left; rfl
    | cons item rest =>
      cases item with
      | error e => right; right; exact ⟨.error e, [], rfl⟩
      | ok m =>
        by_cases hc : (m.fieldType = WebSocketMessage_Type.REQUEST ∧ m.request.hasPath = true ∧
            strContains m.request.path sentinelPath = true)
        · right; right
          cases har : (acknowledge_message env none m.request).2 with
          | ok u =>
            refine ⟨.ok m,
              Event.logDebug queueEmptyLog :: (acknowledge_message env none m.request).1, ?_⟩
            simp [next_loop, if_pos hc, har]
          | error e2 =>
            refine ⟨.ok m,
              Event.logDebug queueEmptyLog :: (acknowledge_message env none m.request).1, ?_⟩
            simp [next_loop, if_pos hc, har]
        · right; right
          cases hni : (next_inner env m).2 with
          | error e2 =>
            refine ⟨.ok m, (next_inner env m).1, ?_⟩
            simp [next_loop, if_neg hc, hni]
          | ok o =>
            cases o with
            | some message =>
              refine ⟨.ok m, (next_inner env m).1, ?_⟩
              simp [next_loop, if_neg hc, hni]
            | none =>
              refine ⟨.ok m, (next_inner env m).1 ++ (next_loop env fuel rest).2.1, ?_⟩
              simp [next_loop, if_neg hc, hni]

theorem takeWhile_all_notRead (l : List Event) (h : ∀ e ∈ l, notRead e = true) :
    l.takeWhile notRead = l := by
  induction l with
  | nil => rfl
  | cons a t ih =>
    rw [List.takeWhile_cons_of_pos (h a (by simp))]
    rw [ih (fun e he => h e (by simp [he]))]

theorem dropWhile_all_notRead (l : List Event) (h : ∀ e ∈ l, notRead e = true) :
    l.dropWhile notRead = [] := by
  induction l with
  | nil => rfl
  | cons a t ih =>
    rw [List.dropWhile_cons_of_pos (h a (by simp))]
    exact ih (fun e he => h e (by simp [he]))

theorem wellAcked_next_loop (env : Env) (fuel : Nat)
    (ins : List (Except String WebSocketMessage)) :
    wellAcked env (next_loop env fuel ins).2.1 := by
  induction fuel generalizing ins with
  | zero => simp [next_loop, wellAcked]
  | succ fuel ih =>
    cases ins with
    | nil => simp [next_loop, wellAcked]
    | cons item rest =>
      cases item with
      | error e =>
        simp [next_loop, wellAcked, chunkCond, getsAck, List.takeWhile, List.dropWhile,
          List.filter]
      | ok m =>
        by_cases hc : (m.fieldType = WebSocketMessage_Type.REQUEST ∧ m.request.hasPath = true ∧
            strContains m.request.path sentinelPath = true)
        · have hackall := ack_notRead env none m.request
          have hall : ∀ e ∈ Event.logDebug queueEmptyLog :: (acknowledge_message env none m.request).1,
              notRead e = true := by
            intro e he
            rcases List.mem_cons.1 he with he2 | he2
            · rw [he2]; rfl
            · exact hackall e he2
          have hga : getsAck env (.ok m) = true := by
            simp [getsAck, hc.1, hc.2.1, hc.2.2]
          have hcc : chunkCond env (.ok m)
              (Event.logDebug queueEmptyLog :: (acknowledge_message env none m.request).1) := by
            unfold chunkCond
            rw [hga, if_pos rfl]
            simp [List.filter, isAckSend, ack_filter, frameRequest]
          cases har : (acknowledge_message env none m.request).2 with
          | ok u =>
            simp only [next_loop, if_pos hc, har]
            simp only [List.cons_append, List.nil_append, wellAcked]
            rw [takeWhile_all_notRead _ hall, dropWhile_all_notRead _ hall]
            exact ⟨hcc, by simp [wellAcked]⟩
          | error e2 =>
            simp only [next_loop, if_pos hc, har]
            simp only [List.cons_append, List.nil_append, wellAcked]
            rw [takeWhile_all_notRead _ hall, dropWhile_all_notRead _ hall]
            exact ⟨hcc, by simp [wellAcked]⟩
        · have hall := next_inner_notRead env m
          have hfil : (next_inner env m).1.filter isAckSend =
              if getsAck env (.ok m) then [Event.sendWS (ackMessage m.request)] else [] := by
            cases hft : m.fieldType with
            | REQUEST =>
              rw [next_inner_filter_ack env m hft]
              have hfalse : (m.request.hasPath && strContains m.request.path sentinelPath) = false := by
                cases hhp : m.request.hasPath with
                | false => rfl
                | true =>
                  cases hco : strContains m.request.path sentinelPath with
                  | false => rfl
                  | true => exact absurd ⟨hft, hhp, hco⟩ hc
              simp [getsAck, hft, hfalse]
            | UNKNOWN => simp [next_inner, hft, getsAck, List.filter]
            | RESPONSE => simp [next_inner, hft, getsAck, List.filter, isAckSend]
          have hcc : chunkCond env (.ok m) ((next_inner env m).1) := by
            unfold chunkCond
            rw [hfil]
            simp [frameRequest]
          cases hni : (next_inner env m).2 with
          | error e2 =>
            simp only [next_loop, if_neg hc, hni, wellAcked]
            rw [takeWhile_all_notRead _ hall, dropWhile_all_notRead _ hall]
            exact ⟨hcc, by simp [wellAcked]⟩
          | ok o =>
            cases o with
            | some message =>
              simp only [next_loop, if_neg hc, hni, wellAcked]
              rw [takeWhile_all_notRead _ hall, dropWhile_all_notRead _ hall]
              exact ⟨hcc, by simp [wellAcked]⟩
            | none =>
              simp only [next_loop, if_neg hc, hni, List.cons_append, wellAcked]
              rw [List.takeWhile_append_of_pos hall, List.dropWhile_append_of_pos hall]
              constructor
              · unfold chunkCond
                rw [List.filter_append, hfil]
                have hrest : ((next_loop env fuel rest).2.1.takeWhile notRead).filter isAckSend
                    = [] := by
                  rcases next_loop_trace_shape env fuel rest with hs | hs | ⟨it, t, hs⟩
                  · rw [hs]; rfl
                  · rw [hs]; rfl
                  · rw [hs, List.takeWhile_cons_of_neg (by simp [notRead])]; rfl
                rw [hrest, List.append_nil]
                simp [frameRequest]
              · rcases next_loop_trace_shape env fuel rest with hs | hs | ⟨it, t, hs⟩
                · rw [hs]; simp [List.dropWhile, wellAcked]
                · rw [hs]
                  rw [List.dropWhile_cons_of_pos (by rfl)]
                  simp [List.dropWhile, wellAcked]
                · rw [hs, List.dropWhile_cons_of_neg (by simp [notRead])]
                  rw [← hs]
                  exact ih rest

theorem swallow_run (env : Env) (ws : WebSocketMessage) (envl : Envelope) (e : String)
    (hsent : ¬(ws.fieldType = WebSocketMessage_Type.REQUEST ∧ ws.request.hasPath = true ∧
      strContains ws.request.path sentinelPath = true))
    (hty : ws.fieldType = WebSocketMessage_Type.REQUEST)
    (hdec : env.read_envelope_from_bin ws.request.body = .ok envl)
    (hswallow : env.handle_inbound_envelope envl = .error (.ProtocolError e))
    (hsend : env.sink_send (ackMessage ws.request) = .ok ())
    (hflush : env.flush_result = .ok ()) :
    ∀ (n : Nat) (rest : List (Except String WebSocketMessage)),
      next_loop env n (List.replicate n (.ok ws) ++ rest) =
        (none, (List.replicate n (swallowChunk ws envl e)).flatten, rest) := by
  have hni : next_inner env ws =
      ([Event.decodeCall ws.request.body, Event.decryptCall envl,
        Event.logWarn (warnProtocolLog e), Event.sendWS (ackMessage ws.request),
        Event.flushSink], .ok none) := by
    simp [next_inner, hty, hdec, hswallow, afterDecrypt, acknowledge_message, flushStep,
      hsend, hflush]
  intro n
  induction n with
  | zero => intro rest; simp [next_loop]
  | succ n ihn =>
    intro rest
    rw [List.replicate_succ, List.cons_append]
    simp only [next_loop, if_neg hsent, hni]
    rw [ihn rest]
    simp [swallowChunk, List.replicate_succ]

theorem countP_flatten_replicate (p : Event → Bool) (n : Nat) (c : List Event) :
    (((List.replicate n c).flatten).countP p) = n * c.countP p := by
  induction n with
  | zero => simp
  | succ n ih => simp [List.replicate_succ, ih, Nat.succ_mul, Nat.add_comm]

/-! Claim theorems. -/

/-- C4: for a Request frame whose raw body fails structural decode into an
Envelope, `next` returns the fatal `DeserializeErr` immediately: the trace
holds no acknowledgment send and no decrypt call for that frame, and no
further frames are polled in that call (the rest of the stream is untouched
and the result is returned at once). -/
theorem decode_failure_is_fatal (env : Env) (ws : WebSocketMessage) (e : String)
    (rest : List (Except String WebSocketMessage)) (fuel : Nat)
    (hty : ws.fieldType = WebSocketMessage_Type.REQUEST)
    (hsent : ¬(ws.fieldType = WebSocketMessage_Type.REQUEST ∧ ws.request.hasPath = true ∧
      strContains ws.request.path sentinelPath = true))
    (hdec : env.read_envelope_from_bin ws.request.body = .error e) :
    next_loop env (fuel + 1) (.ok ws :: rest) =
      (some (.error (.DeserializeErr e)),
       [Event.readFrame (.ok ws), Event.decodeCall ws.request.body], rest) := by
  have hni : next_inner env ws =
      ([Event.decodeCall ws.request.body], .error (.DeserializeErr e)) := by
    simp [next_inner, hty, hdec]
  simp [next_loop, if_neg hsent, hni]

/-- C4 witness: the theorem applied to a concrete undecodable request. -/
theorem decode_failure_is_fatal_witness :
    next_loop envDecodeFailW 64 [.ok wsReq] =
      (some (.error (.DeserializeErr "bad bytes")),
       [Event.readFrame (.ok wsReq), Event.decodeCall wsReq.request.body], []) :=
  decode_failure_is_fatal envDecodeFailW wsReq "bad bytes" [] 63 rfl (by decide) rfl

/-- C5: for a Request frame whose path contains the sentinel
`/api/v1/queue/empty`, `next` sends exactly one acknowledgment (carrying the
request's id) and returns empty with no error when the send and flush
succeed; the trace holds no decode call and no decrypt call, so the body is
never decoded and the decrypt collaborator never invoked. -/
theorem sentinel_acked_and_empty (env : Env) (ws : WebSocketMessage)
    (rest : List (Except String WebSocketMessage)) (fuel : Nat)
    (hty : ws.fieldType = WebSocketMessage_Type.REQUEST)
    (hpath : ws.request.hasPath = true)
    (hcont : strContains ws.request.path sentinelPath = true)
    (hsend : env.sink_send (ackMessage ws.request) = .ok ())
    (hflush : env.flush_result = .ok ()) :
    next_loop env (fuel + 1) (.ok ws :: rest) =
      (none, [Event.readFrame (.ok ws), Event.logDebug queueEmptyLog,
        Event.sendWS (ackMessage ws.request), Event.flushSink], rest) ∧
    (ackMessage ws.request).response.id = ws.request.id := by
  have hack : acknowledge_message env none ws.request =
      ([Event.sendWS (ackMessage ws.request), Event.flushSink], .ok ()) := by
    simp [acknowledge_message, flushStep, hsend, hflush]
  refine ⟨?_, rfl⟩
  simp [next_loop, if_pos (⟨hty, hpath, hcont⟩ :
    ws.fieldType = WebSocketMessage_Type.REQUEST ∧ ws.request.hasPath = true ∧
      strContains ws.request.path sentinelPath = true), hack]

/-- C5 witness: the theorem applied to a concrete sentinel frame, with a
later frame left unread on the stream. -/
theorem sentinel_acked_and_empty_witness :
    next_loop envOkW 64 [.ok wsSentinel, .ok wsReq] =
      (none, [Event.readFrame (.ok wsSentinel), Event.logDebug queueEmptyLog,
        Event.sendWS (ackMessage wsSentinel.request), Event.flushSink], [.ok wsReq]) ∧
    (ackMessage wsSentinel.request).response.id = wsSentinel.request.id :=
  sentinel_acked_and_empty envOkW wsSentinel [.ok wsReq] 63 rfl rfl (by decide) rfl rfl

/-- C8: a Response-type inbound frame produces no returned message and no
acknowledgment: `next_inner` only logs it and yields no message, the loop
continues on the rest of the stream with one unit of the 64-iteration budget
consumed, and the two events this frame contributes contain no
acknowledgment send. -/
theorem response_frame_no_ack_no_message (env : Env) (ws : WebSocketMessage)
    (rest : List (Except String WebSocketMessage)) (fuel : Nat)
    (hty : ws.fieldType = WebSocketMessage_Type.RESPONSE) :
    next_inner env ws = ([Event.logInfo (infoResponseLog ws.response)], .ok none) ∧
    next_loop env (fuel + 1) (.ok ws :: rest) =
      ((next_loop env fuel rest).1,
       [Event.readFrame (.ok ws), Event.logInfo (infoResponseLog ws.response)] ++
         (next_loop env fuel rest).2.1,
       (next_loop env fuel rest).2.2) ∧
    List.countP isAckSend [Event.readFrame (.ok ws),
      Event.logInfo (infoResponseLog ws.response)] = 0 := by
  have hni : next_inner env ws =
      ([Event.logInfo (infoResponseLog ws.response)], .ok none) := by
    simp [next_inner, hty]
  have hsent : ¬(ws.fieldType = WebSocketMessage_Type.REQUEST ∧ ws.request.hasPath = true ∧
      strContains ws.request.path sentinelPath = true) := by
    intro hcc
    rw [hty] at hcc
    exact absurd hcc.1 (by decide)
  refine ⟨hni, ?_, rfl⟩
  simp [next_loop, if_neg hsent, hni]

/-- C8 witness: the theorem applied to a concrete inbound Response frame
followed by an ordinary request. -/
theorem response_frame_no_ack_no_message_witness :
    next_inner envOkW wsResp = ([Event.logInfo (infoResponseLog wsResp.response)], .ok none) ∧
    next_loop envOkW 64 [.ok wsResp, .ok wsReq] =
      ((next_loop envOkW 63 [.ok wsReq]).1,
       [Event.readFrame (.ok wsResp), Event.logInfo (infoResponseLog wsResp.response)] ++
         (next_loop envOkW 63 [.ok wsReq]).2.1,
       (next_loop envOkW 63 [.ok wsReq]).2.2) ∧
    List.countP isAckSend [Event.readFrame (.ok wsResp),
      Event.logInfo (infoResponseLog wsResp.response)] = 0 :=
  response_frame_no_ack_no_message envOkW wsResp [.ok wsReq] 63 rfl

/-- C1: on a Request frame whose body parses but whose decrypt fails with
`ProtocolError` or `DecodingProblem`, `next_inner` logs a warning, treats
the frame as producing no message, still sends the acknowledgment, surfaces
no error, and the loop continues polling within the same call; every other
decrypt-failure classification (the model's `Other`) terminates the call
fatally with that error (`InError`), before any acknowledgment.  Exactly
those two kinds are swallowed. -/
theorem swallow_exactly_two_decrypt_kinds (env : Env) (ws : WebSocketMessage)
    (envl : Envelope) (e : String) (rest : List (Except String WebSocketMessage)) (fuel : Nat)
    (hty : ws.fieldType = WebSocketMessage_Type.REQUEST)
    (hsent : ¬(ws.fieldType = WebSocketMessage_Type.REQUEST ∧ ws.request.hasPath = true ∧
      strContains ws.request.path sentinelPath = true))
    (hdec : env.read_envelope_from_bin ws.request.body = .ok envl)
    (hsend : env.sink_send (ackMessage ws.request) = .ok ())
    (hflush : env.flush_result = .ok ()) :
    (env.handle_inbound_envelope envl = .error (.ProtocolError e) →
      next_inner env ws =
        ([Event.decodeCall ws.request.body, Event.decryptCall envl,
          Event.logWarn (warnProtocolLog e), Event.sendWS (ackMessage ws.request),
          Event.flushSink], .ok none) ∧
      next_loop env (fuel + 1) (.ok ws :: rest) =
        ((next_loop env fuel rest).1,
         (Event.readFrame (.ok ws) :: [Event.decodeCall ws.request.body,
            Event.decryptCall envl, Event.logWarn (warnProtocolLog e),
            Event.sendWS (ackMessage ws.request), Event.flushSink]) ++
           (next_loop env fuel rest).2.1,
         (next_loop env fuel rest).2.2)) ∧
    (env.handle_inbound_envelope envl = .error (.DecodingProblem e) →
      next_inner env ws =
        ([Event.decodeCall ws.request.body, Event.decryptCall envl,
          Event.logWarn (warnDecodingLog e), Event.sendWS (ackMessage ws.request),
          Event.flushSink], .ok none) ∧
      next_loop env (fuel + 1) (.ok ws :: rest) =
        ((next_loop env fuel rest).1,
         (Event.readFrame (.ok ws) :: [Event.decodeCall ws.request.body,
            Event.decryptCall envl, Event.logWarn (warnDecodingLog e),
            Event.sendWS (ackMessage ws.request), Event.flushSink]) ++
           (next_loop env fuel rest).2.1,
         (next_loop env fuel rest).2.2)) ∧
    (∀ e2, env.handle_inbound_envelope envl = .error (.Other e2) →
      next_inner env ws =
        ([Event.decodeCall ws.request.body, Event.decryptCall envl],
         .error (.InError (.Other e2))) ∧
      next_loop env (fuel + 1) (.ok ws :: rest) =
        (some (.error (.InError (.Other e2))),
         [Event.readFrame (.ok ws), Event.decodeCall ws.request.body,
          Event.decryptCall envl], rest)) := by
  have hack : acknowledge_message env none ws.request =
      ([Event.sendWS (ackMessage ws.request), Event.flushSink], .ok ()) := by
    simp [acknowledge_message, flushStep, hsend, hflush]
  refine ⟨fun h => ?_, fun h => ?_, fun e2 h => ?_⟩
  · have hni : next_inner env ws =
        ([Event.decodeCall ws.request.body, Event.decryptCall envl,
          Event.logWarn (warnProtocolLog e), Event.sendWS (ackMessage ws.request),
          Event.flushSink], .ok none) := by
      simp [next_inner, hty, hdec, h, afterDecrypt, hack]
    exact ⟨hni, by simp [next_loop, if_neg hsent, hni]⟩
  · have hni : next_inner env ws =
        ([Event.decodeCall ws.request.body, Event.decryptCall envl,
          Event.logWarn (warnDecodingLog e), Event.sendWS (ackMessage ws.request),
          Event.flushSink], .ok none) := by
      simp [next_inner, hty, hdec, h, afterDecrypt, hack]
    exact ⟨hni, by simp [next_loop, if_neg hsent, hni]⟩
  · have hni : next_inner env ws =
        ([Event.decodeCall ws.request.body, Event.decryptCall envl],
         .error (.InError (.Other e2))) := by
      simp [next_inner, hty, hdec, h]
    exact ⟨hni, by simp [next_loop, if_neg hsent, hni]⟩

/-- C1 witness: the theorem applied to a concrete frame whose decrypt fails
with `ProtocolError`, the collaborator oracle succeeding elsewhere. -/
theorem swallow_exactly_two_decrypt_kinds_witness :
    next_inner envSwallowW wsReq =
      ([Event.decodeCall wsReq.request.body, Event.decryptCall ⟨wsReq.request.body⟩,
        Event.logWarn (warnProtocolLog "stale"), Event.sendWS (ackMessage wsReq.request),
        Event.flushSink], .ok none) ∧
    next_loop envSwallowW 64 [.ok wsReq] =
      ((next_loop envSwallowW 63 []).1,
       (Event.readFrame (.ok wsReq) :: [Event.decodeCall wsReq.request.body,
          Event.decryptCall ⟨wsReq.request.body⟩, Event.logWarn (warnProtocolLog "stale"),
          Event.sendWS (ackMessage wsReq.request), Event.flushSink]) ++
         (next_loop envSwallowW 63 []).2.1,
       (next_loop envSwallowW 63 []).2.2) :=
  (swallow_exactly_two_decrypt_kinds envSwallowW wsReq ⟨wsReq.request.body⟩ "stale" [] 63
    rfl (by decide) rfl rfl rfl).1 rfl

/-- C2: a non-sentinel Request frame whose envelope decrypts to an inbound
message makes `next` return that message, after a trace holding exactly one
acknowledgment websocket send before the return; the acknowledgment echoes
the request's id and headers with status 200 and message "OK". -/
theorem decrypted_message_returned_with_single_ack (env : Env) (ws : WebSocketMessage)
    (envl : Envelope) (m : MessageIn) (rest : List (Except String WebSocketMessage)) (fuel : Nat)
    (hty : ws.fieldType = WebSocketMessage_Type.REQUEST)
    (hsent : ¬(ws.fieldType = WebSocketMessage_Type.REQUEST ∧ ws.request.hasPath = true ∧
      strContains ws.request.path sentinelPath = true))
    (hdec : env.read_envelope_from_bin ws.request.body = .ok envl)
    (hmsg : env.handle_inbound_envelope envl = .ok (some m))
    (hsend : env.sink_send (ackMessage ws.request) = .ok ())
    (hrcpt : m.needsReceipt = true → env.send_message m.remoteAddress = .ok ())
    (hflush : env.flush_result = .ok ())
    (hsave : env.save_peer_sessions m.remoteAddress = .ok ()) :
    next_loop env (fuel + 1) (.ok ws :: rest) =
      (some (.ok m),
       [Event.readFrame (.ok ws), Event.decodeCall ws.request.body, Event.decryptCall envl,
        Event.sendWS (ackMessage ws.request)] ++
         (if m.needsReceipt then [Event.sendReceipt m.remoteAddress] else []) ++
         [Event.flushSink, Event.saveSession m.remoteAddress],
       rest) ∧
    ackMessage ws.request =
      { fieldType := .RESPONSE, request := defaultRequest,
        response := { id := ws.request.id, status := 200, message := "OK",
                      headers := ws.request.headers } } := by
  refine ⟨?_, rfl⟩
  cases hr : m.needsReceipt with
  | false =>
    have hack : acknowledge_message env (some m) ws.request =
        ([Event.sendWS (ackMessage ws.request), Event.flushSink], .ok ()) := by
      simp [acknowledge_message, flushStep, hsend, hr, hflush]
    have hni : next_inner env ws =
        ([Event.decodeCall ws.request.body, Event.decryptCall envl,
          Event.sendWS (ackMessage ws.request), Event.flushSink,
          Event.saveSession m.remoteAddress], .ok (some m)) := by
      simp [next_inner, hty, hdec, hmsg, afterDecrypt, hack, hsave]
    simp [next_loop, if_neg hsent, hni]
  | true =>
    have hack : acknowledge_message env (some m) ws.request =
        ([Event.sendWS (ackMessage ws.request), Event.sendReceipt m.remoteAddress,
          Event.flushSink], .ok ()) := by
      simp [acknowledge_message, flushStep, hsend, hr, hrcpt hr, hflush]
    have hni : next_inner env ws =
        ([Event.decodeCall ws.request.body, Event.decryptCall envl,
          Event.sendWS (ackMessage ws.request), Event.sendReceipt m.remoteAddress,
          Event.flushSink, Event.saveSession m.remoteAddress], .ok (some m)) := by
      simp [next_inner, hty, hdec, hmsg, afterDecrypt, hack, hsave]
    simp [next_loop, if_neg hsent, hni]

/-- C2 witness: the theorem applied to a concrete decryptable request. -/
theorem decrypted_message_returned_with_single_ack_witness :
    next_loop envOkW 64 [.ok wsReq] =
      (some (.ok msgW),
       [Event.readFrame (.ok wsReq), Event.decodeCall wsReq.request.body,
        Event.decryptCall ⟨wsReq.request.body⟩, Event.sendWS (ackMessage wsReq.request)] ++
         (if msgW.needsReceipt then [Event.sendReceipt msgW.remoteAddress] else []) ++
         [Event.flushSink, Event.saveSession msgW.remoteAddress],
       []) ∧
    ackMessage wsReq.request =
      { fieldType := .RESPONSE, request := defaultRequest,
        response := { id := wsReq.request.id, status := 200, message := "OK",
                      headers := wsReq.request.headers } } :=
  decrypted_message_returned_with_single_ack envOkW wsReq ⟨wsReq.request.body⟩ msgW [] 63
    rfl (by decide) rfl rfl rfl (fun h => rfl) rfl rfl

/-- C10: when a Request decrypts to a message with `needs_receipt` and the
external receipt send fails, `next` returns `SendErr` even though decryption
succeeded: the trace shows the acknowledgment already submitted to the
websocket sink but no flush and no session save, and the decrypted message
is not returned. -/
theorem receipt_send_failure_returns_senderr (env : Env) (ws : WebSocketMessage)
    (envl : Envelope) (m : MessageIn) (s : String)
    (rest : List (Except String WebSocketMessage)) (fuel : Nat)
    (hty : ws.fieldType = WebSocketMessage_Type.REQUEST)
    (hsent : ¬(ws.fieldType = WebSocketMessage_Type.REQUEST ∧ ws.request.hasPath = true ∧
      strContains ws.request.path sentinelPath = true))
    (hdec : env.read_envelope_from_bin ws.request.body = .ok envl)
    (hmsg : env.handle_inbound_envelope envl = .ok (some m))
    (hneeds : m.needsReceipt = true)
    (hsend : env.sink_send (ackMessage ws.request) = .ok ())
    (hrfail : env.send_message m.remoteAddress = .error s) :
    next_loop env (fuel + 1) (.ok ws :: rest) =
      (some (.error (.SendErr s)),
       [Event.readFrame (.ok ws), Event.decodeCall ws.request.body, Event.decryptCall envl,
        Event.sendWS (ackMessage ws.request), Event.sendReceipt m.remoteAddress],
       rest) := by
  have hack : acknowledge_message env (some m) ws.request =
      ([Event.sendWS (ackMessage ws.request), Event.sendReceipt m.remoteAddress],
       .error (.SendErr s)) := by
    simp [acknowledge_message, hsend, hneeds, hrfail]
  have hni : next_inner env ws =
      ([Event.decodeCall ws.request.body, Event.decryptCall envl,
        Event.sendWS (ackMessage ws.request), Event.sendReceipt m.remoteAddress],
       .error (.SendErr s)) := by
    simp [next_inner, hty, hdec, hmsg, afterDecrypt, hack]
  simp [next_loop, if_neg hsent, hni]

/-- C10 witness: the theorem applied to a concrete receipt-wanting message
whose external send path fails. -/
theorem receipt_send_failure_returns_senderr_witness :
    next_loop envReceiptFailW 64 [.ok wsReq] =
      (some (.error (.SendErr "http 500")),
       [Event.readFrame (.ok wsReq), Event.decodeCall wsReq.request.body,
        Event.decryptCall ⟨wsReq.request.body⟩, Event.sendWS (ackMessage wsReq.request),
        Event.sendReceipt msgR.remoteAddress],
       []) :=
  receipt_send_failure_returns_senderr envReceiptFailW wsReq ⟨wsReq.request.body⟩ msgR
    "http 500" [] 63 rfl (by decide) rfl rfl rfl rfl rfl

/-- Acknowledgment traces contain no session-save events. -/
theorem ack_no_save (env : Env) (msg : Option MessageIn) (req : WebSocketRequestMessage) :
    (acknowledge_message env msg req).1.countP isSaveEvent = 0 := by
  cases hs : env.sink_send (ackMessage req) with
  | error e => simp [acknowledge_message, hs, isSaveEvent, List.countP_cons]
  | ok u =>
    cases msg with
    | none =>
      cases hf : env.flush_result <;>
        simp [acknowledge_message, flushStep, hs, hf, isSaveEvent, List.countP_cons]
    | some m =>
      cases hr : m.needsReceipt
      · cases hf : env.flush_result <;>
          simp [acknowledge_message, flushStep, hs, hf, hr, isSaveEvent, List.countP_cons]
      · cases hsm : env.send_message m.remoteAddress with
        | error e => simp [acknowledge_message, hs, hr, hsm, isSaveEvent, List.countP_cons]
        | ok v =>
          cases hf : env.flush_result <;>
            simp [acknowledge_message, flushStep, hs, hr, hsm, hf, isSaveEvent,
              List.countP_cons]

/-- C7: within one cycle, the session-persistence collaborator is called
exactly when a decrypted message was produced: on a produced message the
save event follows the acknowledgment events and a save failure terminates
the call with `StoreStateError` (not retried); protocol-only signals
(decrypt ok but no message), swallowed decrypt failures, Response frames,
and sentinel frames produce no save event. -/
theorem session_persisted_iff_message_produced (env : Env) (ws : WebSocketMessage)
    (envl : Envelope) (rest : List (Except String WebSocketMessage)) (fuel : Nat)
    (hty : ws.fieldType = WebSocketMessage_Type.REQUEST)
    (hsent : ¬(ws.fieldType = WebSocketMessage_Type.REQUEST ∧ ws.request.hasPath = true ∧
      strContains ws.request.path sentinelPath = true))
    (hdec : env.read_envelope_from_bin ws.request.body = .ok envl)
    (hsend : env.sink_send (ackMessage ws.request) = .ok ())
    (hflush : env.flush_result = .ok ()) :
    (∀ m, env.handle_inbound_envelope envl = .ok (some m) →
      (m.needsReceipt = true → env.send_message m.remoteAddress = .ok ()) →
      (env.save_peer_sessions m.remoteAddress = .ok () →
        next_inner env ws =
          ([Event.decodeCall ws.request.body, Event.decryptCall envl,
            Event.sendWS (ackMessage ws.request)] ++
             (if m.needsReceipt then [Event.sendReceipt m.remoteAddress] else []) ++
             [Event.flushSink, Event.saveSession m.remoteAddress], .ok (some m))) ∧
      (∀ es, env.save_peer_sessions m.remoteAddress = .error es →
        next_inner env ws =
          ([Event.decodeCall ws.request.body, Event.decryptCall envl,
            Event.sendWS (ackMessage ws.request)] ++
             (if m.needsReceipt then [Event.sendReceipt m.remoteAddress] else []) ++
             [Event.flushSink, Event.saveSession m.remoteAddress],
           .error (.StoreStateError es)) ∧
        next_loop env (fuel + 1) (.ok ws :: rest) =
          (some (.error (.StoreStateError es)),
           [Event.readFrame (.ok ws), Event.decodeCall ws.request.body,
            Event.decryptCall envl, Event.sendWS (ackMessage ws.request)] ++
             (if m.needsReceipt then [Event.sendReceipt m.remoteAddress] else []) ++
             [Event.flushSink, Event.saveSession m.remoteAddress], rest))) ∧
    (env.handle_inbound_envelope envl = .ok none →
      next_inner env ws =
        ([Event.decodeCall ws.request.body, Event.decryptCall envl,
          Event.sendWS (ackMessage ws.request), Event.flushSink], .ok none)) ∧
    (∀ e, env.handle_inbound_envelope envl = .error (.ProtocolError e) →
      (next_inner env ws).1.countP isSaveEvent = 0) ∧
    (∀ e, env.handle_inbound_envelope envl = .error (.DecodingProblem e) →
      (next_inner env ws).1.countP isSaveEvent = 0) ∧
    (∀ ws2 : WebSocketMessage, ws2.fieldType = WebSocketMessage_Type.RESPONSE →
      (next_inner env ws2).1.countP isSaveEvent = 0) ∧
    (∀ (ws2 : WebSocketMessage) (rest2 : List (Except String WebSocketMessage)),
      ws2.fieldType = WebSocketMessage_Type.REQUEST → ws2.request.hasPath = true →
      strContains ws2.request.path sentinelPath = true →
      (next_loop env (fuel + 1) (.ok ws2 :: rest2)).2.1.countP isSaveEvent = 0) := by
  refine ⟨fun m hm hrc => ⟨fun hsok => ?_, fun es hserr => ?_⟩, fun hnone => ?_,
    fun e he => ?_, fun e he => ?_, fun ws2 hft2 => ?_, fun ws2 rest2 h1 h2 h3 => ?_⟩
  · cases hr : m.needsReceipt with
    | false =>
      have hack : acknowledge_message env (some m) ws.request =
          ([Event.sendWS (ackMessage ws.request), Event.flushSink], .ok ()) := by
        simp [acknowledge_message, flushStep, hsend, hr, hflush]
      simp [next_inner, hty, hdec, hm, afterDecrypt, hack, hsok, hr]
    | true =>
      have hack : acknowledge_message env (some m) ws.request =
          ([Event.sendWS (ackMessage ws.request), Event.sendReceipt m.remoteAddress,
            Event.flushSink], .ok ()) := by
        simp [acknowledge_message, flushStep, hsend, hr, hrc hr, hflush]
      simp [next_inner, hty, hdec, hm, afterDecrypt, hack, hsok, hr]
  · cases hr : m.needsReceipt with
    | false =>
      have hack : acknowledge_message env (some m) ws.request =
          ([Event.sendWS (ackMessage ws.request), Event.flushSink], .ok ()) := by
        simp [acknowledge_message, flushStep, hsend, hr, hflush]
      have hni : next_inner env ws =
          ([Event.decodeCall ws.request.body, Event.decryptCall envl,
            Event.sendWS (ackMessage ws.request), Event.flushSink,
            Event.saveSession m.remoteAddress], .error (.StoreStateError es)) := by
        simp [next_inner, hty, hdec, hm, afterDecrypt, hack, hserr]
      refine ⟨by rw [hni]; simp [hr], ?_⟩
      simp [next_loop, if_neg hsent, hni, hr]
    | true =>
      have hack : acknowledge_message env (some m) ws.request =
          ([Event.sendWS (ackMessage ws.request), Event.sendReceipt m.remoteAddress,
            Event.flushSink], .ok ()) := by
        simp [acknowledge_message, flushStep, hsend, hr, hrc hr, hflush]
      have hni : next_inner env ws =
          ([Event.decodeCall ws.request.body, Event.decryptCall envl,
            Event.sendWS (ackMessage ws.request), Event.sendReceipt m.remoteAddress,
            Event.flushSink, Event.saveSession m.remoteAddress],
           .error (.StoreStateError es)) := by
        simp [next_inner, hty, hdec, hm, afterDecrypt, hack, hserr]
      refine ⟨by rw [hni]; simp [hr], ?_⟩
      simp [next_loop, if_neg hsent, hni, hr]
  · have hack : acknowledge_message env none ws.request =
        ([Event.sendWS (ackMessage ws.request), Event.flushSink], .ok ()) := by
      simp [acknowledge_message, flushStep, hsend, hflush]
    simp [next_inner, hty, hdec, hnone, afterDecrypt, hack]
  · have hack : acknowledge_message env none ws.request =
        ([Event.sendWS (ackMessage ws.request), Event.flushSink], .ok ()) := by
      simp [acknowledge_message, flushStep, hsend, hflush]
    have hni : next_inner env ws =
        ([Event.decodeCall ws.request.body, Event.decryptCall envl,
          Event.logWarn (warnProtocolLog e), Event.sendWS (ackMessage ws.request),
          Event.flushSink], .ok none) := by
      simp [next_inner, hty, hdec, he, afterDecrypt, hack]
    rw [hni]
    rfl
  · have hack : acknowledge_message env none ws.request =
        ([Event.sendWS (ackMessage ws.request), Event.flushSink], .ok ()) := by
      simp [acknowledge_message, flushStep, hsend, hflush]
    have hni : next_inner env ws =
        ([Event.decodeCall ws.request.body, Event.decryptCall envl,
          Event.logWarn (warnDecodingLog e), Event.sendWS (ackMessage ws.request),
          Event.flushSink], .ok none) := by
      simp [next_inner, hty, hdec, he, afterDecrypt, hack]
    rw [hni]
    rfl
  · have hni : next_inner env ws2 =
        ([Event.logInfo (infoResponseLog ws2.response)], .ok none) := by
      simp [next_inner, hft2]
    rw [hni]
    rfl
  · cases har : (acknowledge_message env none ws2.request).2 with
    | ok u =>
      simp [next_loop, if_pos (⟨h1, h2, h3⟩ :
        ws2.fieldType = WebSocketMessage_Type.REQUEST ∧ ws2.request.hasPath = true ∧
          strContains ws2.request.path sentinelPath = true), har, List.countP_cons,
        List.countP_append, isSaveEvent, ack_no_save]
    | error e2 =>
      simp [next_loop, if_pos (⟨h1, h2, h3⟩ :
        ws2.fieldType = WebSocketMessage_Type.REQUEST ∧ ws2.request.hasPath = true ∧
          strContains ws2.request.path sentinelPath = true), har, List.countP_cons,
        List.countP_append, isSaveEvent, ack_no_save]

/-- C7 witness: the theorem applied to a concrete decryptable request whose
collaborators all succeed; the produced message's session is saved. -/
theorem session_persisted_iff_message_produced_witness :
    next_inner envOkW wsReq =
      ([Event.decodeCall wsReq.request.body, Event.decryptCall ⟨wsReq.request.body⟩,
        Event.sendWS (ackMessage wsReq.request)] ++
         (if msgW.needsReceipt then [Event.sendReceipt msgW.remoteAddress] else []) ++
         [Event.flushSink, Event.saveSession msgW.remoteAddress], .ok (some msgW)) :=
  ((session_persisted_iff_message_produced envOkW wsReq ⟨wsReq.request.body⟩ [] 63
    rfl (by decide) rfl rfl rfl).1 msgW rfl (fun h => rfl)).1 rfl


/-- C6: `next` reads at most 64 frames from the inbound source per
invocation; and on an input of 64 consecutive structurally valid Request
frames whose decrypt fails recoverably, the call sends 64 acknowledgments,
polls exactly 64 frames, and returns empty (not an error) at the budget
boundary, leaving any further frames unread. -/
theorem budget_64_and_livelock_cutoff :
    (∀ (env : Env) (ins : List (Except String WebSocketMessage)),
      ((next env ins).2.1.countP isReadEvent) ≤ 64) ∧
    (∀ (env : Env) (ws : WebSocketMessage) (envl : Envelope) (e : String)
        (rest : List (Except String WebSocketMessage)),
      ¬(ws.fieldType = WebSocketMessage_Type.REQUEST ∧ ws.request.hasPath = true ∧
          strContains ws.request.path sentinelPath = true) →
      ws.fieldType = WebSocketMessage_Type.REQUEST →
      env.read_envelope_from_bin ws.request.body = .ok envl →
      env.handle_inbound_envelope envl = .error (.ProtocolError e) →
      env.sink_send (ackMessage ws.request) = .ok () →
      env.flush_result = .ok () →
      next env (List.replicate 64 (.ok ws) ++ rest) =
        (none, (List.replicate 64 (swallowChunk ws envl e)).flatten, rest) ∧
      ((List.replicate 64 (swallowChunk ws envl e)).flatten.countP isReadEvent = 64) ∧
      ((List.replicate 64 (swallowChunk ws envl e)).flatten.countP isAckSend = 64)) := by
  constructor
  · intro env ins
    exact next_loop_reads_le env 64 ins
  · intro env ws envl e rest h1 h2 h3 h4 h5 h6
    refine ⟨swallow_run env ws envl e h1 h2 h3 h4 h5 h6 64 rest, ?_, ?_⟩
    · rw [countP_flatten_replicate]
      simp [swallowChunk, List.countP_cons, isReadEvent]
    · rw [countP_flatten_replicate]
      simp [swallowChunk, List.countP_cons, isAckSend, ackMessage_fieldType]

/-- C6 witness: the scenario conjunct applied to 64 copies of a concrete
request whose decrypt fails with `ProtocolError`, with one extra frame left
unread beyond the budget. -/
theorem budget_64_and_livelock_cutoff_witness :
    next envSwallowW (List.replicate 64 (.ok wsReq) ++ [.ok wsReq]) =
      (none, (List.replicate 64 (swallowChunk wsReq ⟨wsReq.request.body⟩ "stale")).flatten,
       [.ok wsReq]) ∧
    ((List.replicate 64 (swallowChunk wsReq ⟨wsReq.request.body⟩ "stale")).flatten.countP
        isReadEvent = 64) ∧
    ((List.replicate 64 (swallowChunk wsReq ⟨wsReq.request.body⟩ "stale")).flatten.countP
        isAckSend = 64) :=
  budget_64_and_livelock_cutoff.2 envSwallowW wsReq ⟨wsReq.request.body⟩ "stale"
    [.ok wsReq] (by decide) rfl rfl rfl rfl rfl

/-- C3 counterexample: a Request frame with an undecodable body is consumed
by the engine (one frame read appears in the trace) yet zero acknowledgments
are sent, refuting "exactly one acknowledgment per consumed Request frame
regardless of how decoding went". -/
theorem consumed_request_zero_acks_counterexample :
    (next envDecodeFailW [.ok wsReq]).2.1 =
      [Event.readFrame (.ok wsReq), Event.decodeCall wsReq.request.body] ∧
    (next envDecodeFailW [.ok wsReq]).2.1.countP isReadEvent = 1 ∧
    (next envDecodeFailW [.ok wsReq]).2.1.countP isAckSend = 0 ∧
    wsReq.fieldType = WebSocketMessage_Type.REQUEST := by
  refine ⟨?_, ?_, ?_, rfl⟩ <;> rfl

/-- C3 (amended): every Request frame that reaches the acknowledgment step
— sentinel-path frames, and ordinary Request frames whose body decodes with
a decrypt outcome that is success or one of the two swallowed failure kinds
— receives exactly one acknowledgment carrying its id, recorded in the
trace before the next frame read; all other consumed frames (stream errors,
Unknown or Response frames, Requests whose body fails decode or whose
decrypt failure is fatal) receive none. -/
theorem every_obliged_request_acked_exactly_once (env : Env)
    (ins : List (Except String WebSocketMessage)) :
    wellAcked env (next env ins).2.1 :=
  wellAcked_next_loop env 64 ins

/-- C9 counterexample: when closing the outbound sink fails, `reconnect`
returns the `ReconnectErr` and stops — the trace holds no connect step, so
reopening is blocked, refuting "failure to close does not block reopening".
-/
theorem reconnect_close_failure_blocks_counterexample :
    reconnect envCloseFailW 0 =
      ([Event.closeSink], .error (.receive (.ReconnectErr "Could not close: denied"))) ∧
    Event.connectWS ∉ (reconnect envCloseFailW 0).1 := by
  refine ⟨rfl, ?_⟩
  decide

/-- C9 (amended): `reconnect` first closes the current outbound sink; a
close failure is reported as `ReconnectErr` and aborts the operation
without contacting the Transport factory, leaving the stream pair in place;
on a successful close it establishes the new duplex connection via the
factory and installs the new inbound source and outbound sink (a connect
failure propagates the transport error). -/
theorem reconnect_close_failure_aborts (env : Env) (streamGen : Nat) :
    (∀ e, env.close_result = .error e →
      reconnect env streamGen =
        ([Event.closeSink], .error (.receive (.ReconnectErr ("Could not close: " ++ e))))) ∧
    (env.close_result = .ok () → env.connect_result = .ok () →
      reconnect env streamGen = ([Event.closeSink, Event.connectWS], .ok (streamGen + 1))) ∧
    (∀ e, env.close_result = .ok () → env.connect_result = .error e →
      reconnect env streamGen =
        ([Event.closeSink, Event.connectWS], .error (.transport e))) := by
  refine ⟨fun e he => ?_, fun hc hco => ?_, fun e hc hce => ?_⟩
  · simp [reconnect, he]
  · simp [reconnect, hc, hco]
  · simp [reconnect, hc, hce]

/-- C9 witness: the theorem applied to a concrete failing close and to a
concrete successful reconnect. -/
theorem reconnect_close_failure_aborts_witness :
    reconnect envCloseFailW 3 =
      ([Event.closeSink], .error (.receive (.ReconnectErr "Could not close: denied"))) ∧
    reconnect envOkW 3 = ([Event.closeSink, Event.connectWS], .ok 4) :=
  ⟨(reconnect_close_failure_aborts envCloseFailW 3).1 "denied" rfl,
   (reconnect_close_failure_aborts envOkW 3).2.1 rfl rfl⟩
